import Mathlib

/-!
Verification of the NUC7 auth-bridge worker (alivirgo/nuc7-website).

The repository contains three near-duplicate variants of the same
Cloudflare-worker service:
  * the store-backed variant (src/auth-bridge.js, first document):
    /track and /stats persist and read a KV namespace NUC7_STATS,
    /send-registration increments a registration counter and sends an
    invitation e-mail, /get-questions returns the shuffled question bank,
  * the bridge-v2 variant (src/auth-bridge.js, second document):
    /get-questions strips answer keys, /validate-quiz scores answers and
    issues a pass token,
  * the part_000 variant (src/unnamed/part_000): /track is a no-op stub,
    /stats returns hardcoded simulated numbers, /get-questions and
    /validate-quiz are identical to bridge v2.

Network calls (vault fetch, crypto.subtle.digest, sendgrid) are external
collaborators: the digest of a password is passed in as an abstract byte
list, and every handler is modelled as a pure function of its inputs and
of the key-value store snapshot it reads.
-/

namespace Nuc7

/-- Minimal JSON value model, enough to state what JSON.stringify of the
handlers' response objects contains (and with which primitive type). -/
inductive JVal where
  | s (v : String)
  | n (v : Nat)
  | b (v : Bool)
  | arr (v : List JVal)
  | obj (v : List (String × JVal))

/-- Field lookup in a JSON object; none on non-objects and absent keys. -/
def JVal.lookup (key : String) : JVal → Option JVal
  | .obj fields => List.lookup key fields
  | _ => none

/-- Vault question record: id, prompt, options, correct option index. -/
structure Question where
  id : Nat
  question : String
  options : List String
  answer : Nat
deriving DecidableEq

/-- Submitted answer: question id and chosen option index. -/
structure SubmittedAnswer where
  id : Nat
  choice : Nat
deriving DecidableEq

/-- Tracked visit record as written to the ledger. -/
structure Hit where
  path : String
  referrer : String
  userAgent : String
  timestamp : String
deriving DecidableEq

/-- Body of a POST /track request (referrer and userAgent optional). -/
structure HitData where
  path : String
  referrer : Option String
  userAgent : Option String
deriving DecidableEq

/-- Snapshot of the NUC7_STATS key-value namespace: the three keys the
worker uses. Counters are stored as strings (put (x.toString)), the hits
ledger is stored as JSON and read back with get ('hits', 'json'). -/
structure StatsStore where
  hits : Option (List Hit)
  totalViews : Option String
  totalReg : Option String
deriving DecidableEq

/-- HTTP response: status code plus JSON body (a bare string for the
plain-text 401 body). -/
structure HttpResponse where
  status : Nat
  body : JVal

/-! Decimal rendering and parsing, modelling x.toString() and
parseInt(get (k)) with its fallback (parseInt(...) or-else 0). -/

/-- Character of a single decimal digit. -/
def digitChar (d : Nat) : Char := Char.ofNat (48 + d)

/-- Decimal rendering of a counter value, modelling Number.toString(). -/
def natToDec (n : Nat) : String :=
  if n = 0 then "0" else String.mk (((Nat.digits 10 n).map digitChar).reverse)

/-- Test for an ASCII decimal digit character. -/
def isDigitChar (c : Char) : Bool := '0' ≤ c && c ≤ '9'

/-- Numeric value of a list of decimal digit characters. -/
def decValue (cs : List Char) : Nat :=
  cs.foldl (fun a c => 10 * a + (c.toNat - 48)) 0

/-- Model of parseInt(v) with the or-else-0 fallback applied by the
worker: an absent key (undefined) parses to NaN and falls back to 0; a
present string contributes the value of its leading digit run (empty run:
NaN, hence 0). -/
def jsParseIntOr0 : Option String → Nat
  | none => 0
  | some s => decValue (s.data.takeWhile isDigitChar)

/-! Lowercase hex rendering of a digest, modelling
Array.from(new Uint8Array(buf)).map(b => b.toString(16).padStart(2, '0')).join(''). -/

/-- Single lowercase hex digit character. -/
def hexDigit (n : Nat) : Char :=
  if n < 10 then Char.ofNat (48 + n) else Char.ofNat (87 + n)

/-- Two-character rendering of one byte: toString(16) left-padded to
width 2 with '0'. -/
def byteToHex (b : Nat) : List Char :=
  if b < 16 then ['0', hexDigit b] else [hexDigit (b / 16), hexDigit (b % 16)]

/-- Lowercase hex string of a digest byte list. -/
def bytesToHex (bs : List Nat) : String := String.mk ((bs.map byteToHex).flatten)

/-- Test for a lowercase hexadecimal character. -/
def isLowerHexChar (c : Char) : Bool :=
  ('0' ≤ c && c ≤ '9') || ('a' ≤ c && c ≤ 'f')

/-! Base64 encoding, modelling btoa on a latin-1 string. -/

/-- The base64 alphabet. -/
def b64Alphabet : List Char :=
  "ABCDEFGHIJKLMNOPQRSTUVWXYZabcdefghijklmnopqrstuvwxyz0123456789+/".data

/-- Base64 digit character for a 6-bit value. -/
def b64Char (n : Nat) : Char := b64Alphabet.getD n 'A'

/-- Base64 encoding of a byte list, three bytes to four characters, with
'=' padding on a short final group. -/
def base64Chunks : List Nat → List Char
  | [] => []
  | [b0] => [b64Char (b0 / 4), b64Char (b0 % 4 * 16), '=', '=']
  | [b0, b1] => [b64Char (b0 / 4), b64Char (b0 % 4 * 16 + b1 / 16),
                 b64Char (b1 % 16 * 4), '=']
  | b0 :: b1 :: b2 :: rest =>
      b64Char (b0 / 4) :: b64Char (b0 % 4 * 16 + b1 / 16) ::
      b64Char (b1 % 16 * 4 + b2 / 64) :: b64Char (b2 % 64) :: base64Chunks rest

/-- Model of btoa: base64 of the string's code units. -/
def btoa (str : String) : String :=
  String.mk (base64Chunks (str.data.map Char.toNat))

/-! The hit ledger and the counters (store-backed /track, /stats,
/send-registration in src/auth-bridge.js, first document). -/

/-- Model of (v or-else default) on an optional request field: undefined
and the empty string both fall back (JS truthiness). -/
def jsOrDefault (v : Option String) (dflt : String) : String :=
  match v with
  | none => dflt
  | some s => if s = "" then dflt else s

/-- Hit record built from a /track request body at a given timestamp. -/
def mkHit (hd : HitData) (now : String) : Hit :=
  { path := hd.path
    referrer := jsOrDefault hd.referrer "Direct"
    userAgent := jsOrDefault hd.userAgent "Unknown"
    timestamp := now }

/-- Ledger update of /track: hits.unshift(hit); if (hits.length > 50)
hits.pop(). -/
def recordHitHits (hits : List Hit) (hit : Hit) : List Hit :=
  let hs := hit :: hits
  if hs.length > 50 then hs.dropLast else hs

/-- Store update performed by a /track request: prepend-and-truncate the
ledger, then read-increment-write the totalViews counter. -/
def applyTrack (st : StatsStore) (hd : HitData) (now : String) : StatsStore :=
  { hits := some (recordHitHits (st.hits.getD []) (mkHit hd now))
    totalViews := some (natToDec (jsParseIntOr0 st.totalViews + 1))
    totalReg := st.totalReg }

/-- Store update performed by /send-registration when the store is
configured: read-increment-write the totalReg counter. -/
def applyRegistration (st : StatsStore) : StatsStore :=
  { st with totalReg := some (natToDec (jsParseIntOr0 st.totalReg + 1)) }

/-- JSON rendering of one stored hit. -/
def hitJson (h : Hit) : JVal :=
  .obj [("path", .s h.path), ("referrer", .s h.referrer),
        ("userAgent", .s h.userAgent), ("timestamp", .s h.timestamp)]

/-- Successful /stats response body of the store-backed variant: the
activeUsers heuristic, the two counters as the raw stored strings
(defaulting to "0"), and the stored hits list. -/
def statsPayload (st : StatsStore) : JVal :=
  .obj [("activeUsers", .n (max 1 ((st.hits.getD []).length / 4))),
        ("pageViews", .s (st.totalViews.getD "0")),
        ("totalRegistrations", .s (st.totalReg.getD "0")),
        ("hits", .arr ((st.hits.getD []).map hitJson))]

/-- Read-only /stats read of the store: produces the payload and leaves
the store untouched (the handler performs no put). -/
def readStats (st : StatsStore) : JVal × StatsStore := (statsPayload st, st)

/-- Store-backed /track handler: 500 naming the missing KV namespace when
the store handle is absent, otherwise persist the hit and report success. -/
def trackHandlerV1 (store : Option StatsStore) (hd : HitData) (now : String) :
    Option StatsStore × HttpResponse :=
  match store with
  | none => (none, ⟨500, .obj [("error", .s "KV Namespace NUC7_STATS not found.")]⟩)
  | some st => (some (applyTrack st hd now), ⟨200, .obj [("success", .b true)]⟩)

/-- part_000 /track handler: a no-op stub that returns success and never
touches any store. -/
def trackHandlerPart000 (store : Option StatsStore) (_hd : HitData) :
    Option StatsStore × HttpResponse :=
  (store, ⟨200, .obj [("success", .b true)]⟩)

/-- Store-backed /stats handler, with the SHA-256 digest of the submitted
password passed in as an abstract byte list (crypto.subtle.digest is a
platform primitive): 401 Unauthorized unless the lowercase hex rendering
of the digest equals the vault's adminPasswordHash, then 500 if the store
is missing, else the stats payload. -/
def statsHandlerV1 (digest : List Nat) (vaultHash : String)
    (store : Option StatsStore) : HttpResponse :=
  if bytesToHex digest = vaultHash then
    match store with
    | none => ⟨500, .obj [("error", .s "NUC7_STATS KV missing.")]⟩
    | some st => ⟨200, (readStats st).1⟩
  else ⟨401, .s "Unauthorized"⟩

/-- part_000 /stats success body: hardcoded simulated numbers, no stored
ledger and no registration counter; the two recentHits timestamps are the
current time. -/
def part000StatsBody (now : String) : JVal :=
  .obj [("activeUsers", .n 42), ("pageViews", .n 1248), ("passRate", .s "82%"),
        ("recentHits", .arr
          [.obj [("time", .s now), ("path", .s "/"), ("ref", .s "Google")],
           .obj [("time", .s now), ("path", .s "/quiz.html"), ("ref", .s "Direct")]])]

/-- part_000 /stats handler: same digest gate, hardcoded body. -/
def statsHandlerPart000 (digest : List Nat) (vaultHash : String) (now : String) :
    HttpResponse :=
  if bytesToHex digest = vaultHash then ⟨200, part000StatsBody now⟩
  else ⟨401, .s "Unauthorized"⟩

/-- Result of a /send-registration request: the updated store handle,
whether the invitation e-mail step was attempted, and the response. -/
structure RegistrationOutcome where
  store : Option StatsStore
  emailAttempted : Bool
  response : HttpResponse

/-- The /send-registration handler: build the signed token from the
abstract digest of email:now:salt, increment the registration counter
only when the store is configured, attempt the e-mail only when the
sendgrid key is configured, and always report success. -/
def sendRegistrationHandler (store : Option StatsStore)
    (sendgridKey : Option String) (digest : List Nat) : RegistrationOutcome :=
  let _token := btoa (bytesToHex digest)
  { store := match store with
      | none => none
      | some st => some (applyRegistration st)
    emailAttempted := sendgridKey.isSome
    response := ⟨200, .obj [("success", .b true),
                            ("message", .s "Registry complete. Check email.")]⟩ }

/-! The question sampler (/get-questions) and the quiz scorer
(/validate-quiz). The comparator shuffle questions.sort(...) produces
some permutation of the bank; handlers below take the post-sort list,
and theorems quantify over any permutation of the bank. -/

/-- JSON rendering of a full vault question record, answer key included
(what the store-backed variant's JSON.stringify(shuffled) emits). -/
def questionJson (q : Question) : JVal :=
  .obj [("id", .n q.id), ("question", .s q.question),
        ("options", .arr (q.options.map JVal.s)), ("answer", .n q.answer)]

/-- JSON rendering of a sanitized question: id, prompt, options only
(the map in bridge v2 and part_000). -/
def sanitizedJson (q : Question) : JVal :=
  .obj [("id", .n q.id), ("question", .s q.question),
        ("options", .arr (q.options.map JVal.s))]

/-- Store-backed /get-questions body: take the first 10 of the shuffled
bank and serialize the records whole. -/
def getQuestionsV1Body (shuffled : List Question) : JVal :=
  .arr ((shuffled.take 10).map questionJson)

/-- Bridge-v2 and part_000 /get-questions body: take the first 10 of the
shuffled bank and strip each record to id, question, options. -/
def getQuestionsV2Body (shuffled : List Question) : JVal :=
  .arr ((shuffled.take 10).map sanitizedJson)

/-- The selected (pre-serialization) sample of the v2 sampler. -/
def sampleSelected (shuffled : List Question) : List Question :=
  shuffled.take 10

/-- One answer's contribution test, exactly as the scoring loop performs
it: find the first bank question with the submitted id, then compare its
recorded answer index with the submitted choice. -/
def answerMatches (bank : List Question) (ua : SubmittedAnswer) : Bool :=
  match bank.find? (fun v => v.id == ua.id) with
  | some q => q.answer == ua.choice
  | none => false

/-- The /validate-quiz scoring loop: fold over the submitted answers,
incrementing on each match. -/
def scoreQuiz (bank : List Question) (answers : List SubmittedAnswer) : Nat :=
  answers.foldl
    (fun s ua =>
      match bank.find? (fun v => v.id == ua.id) with
      | some q => if q.answer == ua.choice then s + 1 else s
      | none => s)
    0

/-- The pass threshold of /validate-quiz. -/
def passThreshold : Nat := 7

/-- The pass token: btoa of email:now:passed, with now the millisecond
timestamp rendered in decimal. -/
def passToken (email : String) (now : Nat) : String :=
  btoa (email ++ ":" ++ natToDec now ++ ":passed")

/-- The /validate-quiz handler (identical in bridge v2 and part_000):
score the answers against the bank, then either issue the pass token or
report failure with an error marker. -/
def validateQuizHandler (bank : List Question) (answers : List SubmittedAnswer)
    (email : String) (now : Nat) : HttpResponse :=
  let score := scoreQuiz bank answers
  if passThreshold ≤ score then
    ⟨200, .obj [("success", .b true), ("score", .n score),
                ("token", .s (passToken email now))]⟩
  else
    ⟨200, .obj [("success", .b false), ("score", .n score),
                ("error", .s "Failed")]⟩

/-! Helper lemmas. -/

/-- The decimal digit character of d < 10 has code 48 + d. -/
lemma digitChar_toNat (d : Nat) (h : d < 10) : (digitChar d).toNat = 48 + d := by
  interval_cases d <;> decide

/-- Decimal digit characters pass the digit test. -/
lemma isDigitChar_digitChar (d : Nat) (h : d < 10) :
    isDigitChar (digitChar d) = true := by
  interval_cases d <;> decide

/-- takeWhile is the identity on a list all of whose elements pass. -/
lemma takeWhile_of_forall {α : Type} (p : α → Bool) (l : List α)
    (h : ∀ c ∈ l, p c = true) : l.takeWhile p = l := by
  induction l with
  | nil => rfl
  | cons c l ih =>
    rw [List.takeWhile_cons, h c (by simp), ih (fun x hx => h x (by simp [hx]))]
    simp

/-- Appending one character multiplies the accumulated value by ten. -/
lemma decValue_append (cs : List Char) (c : Char) :
    decValue (cs ++ [c]) = 10 * decValue cs + (c.toNat - 48) := by
  unfold decValue
  rw [List.foldl_append]
  rfl

/-- The decimal value of the big-endian rendering of a digit list. -/
lemma decValue_rev_digits (ds : List Nat) (h : ∀ d ∈ ds, d < 10) :
    decValue ((ds.map digitChar).reverse) = Nat.ofDigits 10 ds := by
  induction ds with
  | nil => rfl
  | cons d ds ih =>
    have hd : d < 10 := h d (by simp)
    have hds : ∀ x ∈ ds, x < 10 := fun x hx => h x (by simp [hx])
    rw [List.map_cons, List.reverse_cons, decValue_append, ih hds,
      Nat.ofDigits_cons, digitChar_toNat d hd]
    omega

/-- Round trip: parseInt(n.toString()) recovers the counter value. -/
lemma jsParseIntOr0_natToDec (n : Nat) :
    jsParseIntOr0 (some (natToDec n)) = n := by
  by_cases h0 : n = 0
  · subst h0; rfl
  · have hlt : ∀ d ∈ Nat.digits 10 n, d < 10 :=
      fun d hd => Nat.digits_lt_base (by norm_num) hd
    have hall : ∀ c ∈ ((Nat.digits 10 n).map digitChar).reverse,
        isDigitChar c = true := by
      intro c hc
      rw [List.mem_reverse, List.mem_map] at hc
      obtain ⟨d, hd, rfl⟩ := hc
      exact isDigitChar_digitChar d (hlt d hd)
    have h1 : natToDec n = String.mk (((Nat.digits 10 n).map digitChar).reverse) := by
      unfold natToDec
      rw [if_neg h0]
    rw [h1]
    show decValue ((((Nat.digits 10 n).map digitChar).reverse).takeWhile isDigitChar) = n
    rw [takeWhile_of_forall _ _ hall, decValue_rev_digits _ hlt,
      Nat.ofDigits_digits]

/-- Hex digit characters are lowercase hex. -/
lemma isLowerHexChar_hexDigit (n : Nat) (h : n < 16) :
    isLowerHexChar (hexDigit n) = true := by
  interval_cases n <;> decide

/-- Both characters of a byte's hex rendering are lowercase hex. -/
lemma byteToHex_lower (b : Nat) (hb : b < 256) :
    ∀ c ∈ byteToHex b, isLowerHexChar c = true := by
  intro c hc
  unfold byteToHex at hc
  by_cases h16 : b < 16
  · rw [if_pos h16] at hc
    simp only [List.mem_cons, List.not_mem_nil, or_false] at hc
    rcases hc with rfl | rfl
    · decide
    · exact isLowerHexChar_hexDigit b h16
  · rw [if_neg h16] at hc
    simp only [List.mem_cons, List.not_mem_nil, or_false] at hc
    rcases hc with rfl | rfl
    · exact isLowerHexChar_hexDigit _ (by omega)
    · exact isLowerHexChar_hexDigit _ (Nat.mod_lt _ (by norm_num))

/-- Every character of a digest's hex rendering is lowercase hex. -/
lemma bytesToHex_lower (bs : List Nat) (hbs : ∀ b ∈ bs, b < 256) :
    ∀ c ∈ (bytesToHex bs).data, isLowerHexChar c = true := by
  intro c hc
  show isLowerHexChar c = true
  have : c ∈ (bs.map byteToHex).flatten := hc
  rw [List.mem_flatten] at this
  obtain ⟨l, hl, hcl⟩ := this
  rw [List.mem_map] at hl
  obtain ⟨b, hb, rfl⟩ := hl
  exact byteToHex_lower b (hbs b hb) c hcl

/-- The freshly recorded hit is always the first ledger entry. -/
lemma recordHitHits_head (hits : List Hit) (hit : Hit) :
    (recordHitHits hits hit).head? = some hit := by
  unfold recordHitHits
  by_cases hl : (hit :: hits).length > 50
  · rw [if_pos hl]
    cases hits with
    | nil => simp at hl
    | cons h t => rfl
  · rw [if_neg hl]
    rfl

/-- The scoring fold, from any accumulator value, adds the number of
matching answers. -/
lemma score_foldl (bank : List Question) (answers : List SubmittedAnswer)
    (s : Nat) :
    answers.foldl
      (fun s ua =>
        match bank.find? (fun v => v.id == ua.id) with
        | some q => if q.answer == ua.choice then s + 1 else s
        | none => s)
      s = s + answers.countP (answerMatches bank) := by
  induction answers generalizing s with
  | nil => simp
  | cons ua answers ih =>
    rw [List.foldl_cons, List.countP_cons]
    cases hfind : bank.find? (fun v => v.id == ua.id) with
    | none =>
      have hm : answerMatches bank ua = false := by
        unfold answerMatches
        rw [hfind]
      simp only [hfind, hm, Bool.false_eq_true, if_false]
      rw [ih]
      omega
    | some q =>
      have hm : answerMatches bank ua = (q.answer == ua.choice) := by
        unfold answerMatches
        rw [hfind]
      simp only [hfind, hm]
      by_cases hc : (q.answer == ua.choice) = true
      · rw [if_pos hc, if_pos hc, ih]
        omega
      · rw [if_neg hc, if_neg hc, ih]
        omega

/-- The scoring loop counts the matching answers. -/
lemma scoreQuiz_eq_countP (bank : List Question)
    (answers : List SubmittedAnswer) :
    scoreQuiz bank answers = answers.countP (answerMatches bank) := by
  unfold scoreQuiz
  rw [score_foldl]
  omega

/-- Under unique bank ids, the loop's first-match test agrees with the
specification's membership formulation. -/
lemma answerMatches_iff (bank : List Question)
    (hids : (bank.map Question.id).Nodup) (ua : SubmittedAnswer) :
    answerMatches bank ua = true ↔
      ∃ q ∈ bank, q.id = ua.id ∧ q.answer = ua.choice := by
  unfold answerMatches
  cases hfind : bank.find? (fun v => v.id == ua.id) with
  | none =>
    rw [List.find?_eq_none] at hfind
    simp only [Bool.false_eq_true, false_iff]
    rintro ⟨q, hq, hid, -⟩
    exact hfind q hq (by simp [hid])
  | some q =>
    have hq : q ∈ bank := List.mem_of_find?_eq_some hfind
    have hid : q.id = ua.id := by
      have := List.find?_some hfind
      simpa using this
    constructor
    · intro hans
      have hans' : (q.answer == ua.choice) = true := hans
      exact ⟨q, hq, hid, by simpa using hans'⟩
    · rintro ⟨q', hq', hid', hans'⟩
      have hqq : q = q' :=
        List.inj_on_of_nodup_map hids hq hq' (by rw [hid, hid'])
      show (q.answer == ua.choice) = true
      rw [hqq, hans']
      simp

/-! Claim theorems. -/

/-- C1: the claim demands that no element returned by GET /get-questions
contains the answer-key field. The store-backed variant of
src/auth-bridge.js serializes the shuffled vault records whole, so on the
one-question bank the single returned element still carries its answer
field; the sanitizing map of bridge v2 and part_000 (the behavior the
spec describes) strips it on the same input. -/
theorem getQuestionsV1_retains_answer_key :
    getQuestionsV1Body [⟨1, "q1", ["a", "b"], 0⟩] =
      .arr [questionJson ⟨1, "q1", ["a", "b"], 0⟩] ∧
    (questionJson ⟨1, "q1", ["a", "b"], 0⟩).lookup "answer" = some (.n 0) ∧
    (getQuestionsV2Body [⟨1, "q1", ["a", "b"], 0⟩] =
      .arr [sanitizedJson ⟨1, "q1", ["a", "b"], 0⟩]) ∧
    (sanitizedJson ⟨1, "q1", ["a", "b"], 0⟩).lookup "answer" = none := by
  refine ⟨rfl, ?_, rfl, ?_⟩ <;> rfl

/-- C5: recording a hit inserts at the front and evicts only from the
back: below capacity the ledger grows by one with the new hit first; at
capacity 50 the length stays 50, the new hit is first, and the former
last entry is dropped. -/
theorem recordHit_ledger_spec (hits : List Hit) (hit : Hit)
    (hle : hits.length ≤ 50) :
    (recordHitHits hits hit).length ≤ 50 ∧
    (recordHitHits hits hit).head? = some hit ∧
    (hits.length < 50 → recordHitHits hits hit = hit :: hits) ∧
    (hits.length = 50 →
      recordHitHits hits hit = hit :: hits.dropLast ∧
      (recordHitHits hits hit).length = 50) := by
  refine ⟨?_, recordHitHits_head hits hit, ?_, ?_⟩
  · unfold recordHitHits
    by_cases hl : (hit :: hits).length > 50
    · rw [if_pos hl]
      rw [List.length_dropLast]
      simp only [List.length_cons]
      omega
    · rw [if_neg hl]
      simp only [List.length_cons] at hl ⊢
      omega
  · intro hlt
    unfold recordHitHits
    rw [if_neg (by simp only [List.length_cons]; omega)]
  · intro h50
    have hne : hits ≠ [] := by
      intro h
      rw [h] at h50
      simp at h50
    have hgt : (hit :: hits).length > 50 := by
      simp only [List.length_cons]
      omega
    constructor
    · unfold recordHitHits
      rw [if_pos hgt, List.dropLast_cons_of_ne_nil hne]
    · unfold recordHitHits
      rw [if_pos hgt, List.length_dropLast]
      simp only [List.length_cons]
      omega

/-- C5 witness: the theorem applied to the empty ledger and a concrete
hit. -/
theorem recordHit_ledger_spec_witness :
    ([] : List Hit).length ≤ 50 ∧
    ((recordHitHits [] ⟨"/", "Direct", "Unknown", "t0"⟩).length ≤ 50 ∧
    (recordHitHits [] ⟨"/", "Direct", "Unknown", "t0"⟩).head? =
      some ⟨"/", "Direct", "Unknown", "t0"⟩ ∧
    (([] : List Hit).length < 50 →
      recordHitHits [] ⟨"/", "Direct", "Unknown", "t0"⟩ =
        [⟨"/", "Direct", "Unknown", "t0"⟩]) ∧
    (([] : List Hit).length = 50 →
      recordHitHits [] ⟨"/", "Direct", "Unknown", "t0"⟩ =
        ⟨"/", "Direct", "Unknown", "t0"⟩ :: ([] : List Hit).dropLast ∧
      (recordHitHits [] ⟨"/", "Direct", "Unknown", "t0"⟩).length = 50)) :=
  ⟨by decide, recordHit_ledger_spec [] ⟨"/", "Direct", "Unknown", "t0"⟩ (by decide)⟩

/-- C6: each counter reads as 0 when absent; a /track call increments the
totalViews read by exactly one and leaves totalReg alone; a registration
increments the totalReg read by exactly one and leaves totalViews alone;
the stats read mutates nothing; hence the views counter never decreases. -/
theorem counters_spec (st : StatsStore) (hd : HitData) (now : String) :
    jsParseIntOr0 none = 0 ∧
    jsParseIntOr0 (applyTrack st hd now).totalViews =
      jsParseIntOr0 st.totalViews + 1 ∧
    (applyTrack st hd now).totalReg = st.totalReg ∧
    jsParseIntOr0 (applyRegistration st).totalReg =
      jsParseIntOr0 st.totalReg + 1 ∧
    (applyRegistration st).totalViews = st.totalViews ∧
    (readStats st).2 = st ∧
    jsParseIntOr0 st.totalViews ≤ jsParseIntOr0 (applyTrack st hd now).totalViews := by
  refine ⟨rfl, ?_, rfl, ?_, rfl, rfl, ?_⟩
  · exact jsParseIntOr0_natToDec _
  · exact jsParseIntOr0_natToDec _
  · rw [show (applyTrack st hd now).totalViews =
        some (natToDec (jsParseIntOr0 st.totalViews + 1)) from rfl,
      jsParseIntOr0_natToDec]
    omega

/-- A store snapshot with no keys set. -/
def emptyStore : StatsStore := ⟨none, none, none⟩

/-- C2: the quiz score equals the count of submitted (id, choice) pairs
whose id is found in the bank with that question's recorded correct index
equal to the choice (stated both through the loop's first-match test and
through the specification's membership formulation, equivalent under the
bank's unique-id invariant); unmatched ids contribute nothing, duplicates
count independently, the score is invariant under permutation of the
answer list, and the empty answer list scores 0. -/
theorem scoreQuiz_spec (bank : List Question) (answers : List SubmittedAnswer)
    (hids : (bank.map Question.id).Nodup) :
    scoreQuiz bank answers = answers.countP (answerMatches bank) ∧
    scoreQuiz bank answers = answers.countP
      (fun ua => decide (∃ q ∈ bank, q.id = ua.id ∧ q.answer = ua.choice)) ∧
    (∀ answers', answers'.Perm answers →
      scoreQuiz bank answers' = scoreQuiz bank answers) ∧
    scoreQuiz bank [] = 0 := by
  refine ⟨scoreQuiz_eq_countP bank answers, ?_, ?_, rfl⟩
  · rw [scoreQuiz_eq_countP]
    apply List.countP_congr
    intro ua _
    by_cases hP : ∃ q ∈ bank, q.id = ua.id ∧ q.answer = ua.choice
    · rw [(answerMatches_iff bank hids ua).mpr hP, decide_eq_true hP]
    · have hfalse : answerMatches bank ua = false := by
        rw [← Bool.not_eq_true]
        exact fun h => hP ((answerMatches_iff bank hids ua).mp h)
      rw [hfalse, decide_eq_false hP]
  · intro answers' hperm
    rw [scoreQuiz_eq_countP, scoreQuiz_eq_countP]
    exact hperm.countP_eq _

/-- C2 witness: the theorem applied to a concrete one-question bank and a
two-answer submission. -/
theorem scoreQuiz_spec_witness :
    (([⟨1, "q1", ["a", "b"], 0⟩] : List Question).map Question.id).Nodup ∧
    (scoreQuiz [⟨1, "q1", ["a", "b"], 0⟩]
        ([⟨1, 0⟩, ⟨2, 1⟩] : List SubmittedAnswer) =
      List.countP (answerMatches [⟨1, "q1", ["a", "b"], 0⟩])
        ([⟨1, 0⟩, ⟨2, 1⟩] : List SubmittedAnswer) ∧
    scoreQuiz [⟨1, "q1", ["a", "b"], 0⟩]
        ([⟨1, 0⟩, ⟨2, 1⟩] : List SubmittedAnswer) =
      List.countP
        (fun (ua : SubmittedAnswer) =>
          decide (∃ q ∈ ([⟨1, "q1", ["a", "b"], 0⟩] : List Question),
            q.id = ua.id ∧ q.answer = ua.choice))
        ([⟨1, 0⟩, ⟨2, 1⟩] : List SubmittedAnswer) ∧
    (∀ answers',
      answers'.Perm ([⟨1, 0⟩, ⟨2, 1⟩] : List SubmittedAnswer) →
      scoreQuiz [⟨1, "q1", ["a", "b"], 0⟩] answers' =
        scoreQuiz [⟨1, "q1", ["a", "b"], 0⟩]
          ([⟨1, 0⟩, ⟨2, 1⟩] : List SubmittedAnswer)) ∧
    scoreQuiz [⟨1, "q1", ["a", "b"], 0⟩] [] = 0) :=
  ⟨by decide,
    scoreQuiz_spec [⟨1, "q1", ["a", "b"], 0⟩]
      ([⟨1, 0⟩, ⟨2, 1⟩] : List SubmittedAnswer) (by decide)⟩

/-- C3: the quiz verdict is a pass exactly when the score reaches the
threshold 7; the response carries a token exactly when it passes; and the
token is btoa of email:timestamp:passed. -/
theorem validateQuiz_verdict_token_spec (bank : List Question)
    (answers : List SubmittedAnswer) (email : String) (now : Nat) :
    (validateQuizHandler bank answers email now).body.lookup "success" =
      some (.b (decide (passThreshold ≤ scoreQuiz bank answers))) ∧
    (validateQuizHandler bank answers email now).body.lookup "token" =
      (if passThreshold ≤ scoreQuiz bank answers
        then some (.s (passToken email now)) else none) ∧
    ((∃ t, (validateQuizHandler bank answers email now).body.lookup "token" =
        some t) ↔
      (validateQuizHandler bank answers email now).body.lookup "success" =
        some (.b true)) ∧
    passToken email now = btoa (email ++ ":" ++ natToDec now ++ ":passed") := by
  by_cases h : passThreshold ≤ scoreQuiz bank answers <;>
    simp [validateQuizHandler, JVal.lookup, List.lookup, h, passToken]

/-- C4: the /stats credential gate answers 401 Unauthorized with no stats
payload exactly when the lowercase hex rendering of the password's
SHA-256 digest differs from the vault's stored hash (in both the
store-backed and the part_000 variant), and the rendering the worker
compares is made of lowercase hex characters only, so any stored hash
containing other characters (uppercase hex included) is rejected. -/
theorem statsAuth_spec (digest : List Nat) (vaultHash : String)
    (store : Option StatsStore) (now : String)
    (hbytes : ∀ b ∈ digest, b < 256) :
    ((statsHandlerV1 digest vaultHash store).status = 401 ↔
      bytesToHex digest ≠ vaultHash) ∧
    (bytesToHex digest ≠ vaultHash →
      statsHandlerV1 digest vaultHash store = ⟨401, .s "Unauthorized"⟩) ∧
    ((statsHandlerPart000 digest vaultHash now).status = 401 ↔
      bytesToHex digest ≠ vaultHash) ∧
    (bytesToHex digest ≠ vaultHash →
      statsHandlerPart000 digest vaultHash now = ⟨401, .s "Unauthorized"⟩) ∧
    (∀ c ∈ (bytesToHex digest).data, isLowerHexChar c = true) := by
  by_cases heq : bytesToHex digest = vaultHash
  · cases store with
    | none =>
      refine ⟨?_, ?_, ?_, ?_, bytesToHex_lower digest hbytes⟩ <;>
        simp [statsHandlerV1, statsHandlerPart000, heq]
    | some st =>
      refine ⟨?_, ?_, ?_, ?_, bytesToHex_lower digest hbytes⟩ <;>
        simp [statsHandlerV1, statsHandlerPart000, heq]
  · refine ⟨?_, ?_, ?_, ?_, bytesToHex_lower digest hbytes⟩ <;>
      simp [statsHandlerV1, statsHandlerPart000, heq]

/-- C4 witness: the theorem applied to the one-byte digest 0xab, a
mismatching stored hash, and an absent store. -/
theorem statsAuth_spec_witness :
    (∀ b ∈ [171], b < 256) ∧
    (((statsHandlerV1 [171] "xx" none).status = 401 ↔
      bytesToHex [171] ≠ "xx") ∧
    (bytesToHex [171] ≠ "xx" →
      statsHandlerV1 [171] "xx" none = ⟨401, .s "Unauthorized"⟩) ∧
    ((statsHandlerPart000 [171] "xx" "t0").status = 401 ↔
      bytesToHex [171] ≠ "xx") ∧
    (bytesToHex [171] ≠ "xx" →
      statsHandlerPart000 [171] "xx" "t0" = ⟨401, .s "Unauthorized"⟩) ∧
    (∀ c ∈ (bytesToHex [171]).data, isLowerHexChar c = true)) :=
  ⟨by decide, statsAuth_spec [171] "xx" none "t0" (by decide)⟩

/-- C7 (amended): in the store-backed variant every credential-verified
/stats call returns activeUsers = max 1 (hitCount / 4) over the stored
ledger, the two counters as stored (default "0"), and the stored hits
list. -/
theorem readStats_payload_spec (st : StatsStore) (digest : List Nat) :
    statsHandlerV1 digest (bytesToHex digest) (some st) =
      ⟨200, statsPayload st⟩ ∧
    (statsPayload st).lookup "activeUsers" =
      some (.n (max 1 ((st.hits.getD []).length / 4))) ∧
    (statsPayload st).lookup "pageViews" = some (.s (st.totalViews.getD "0")) ∧
    (statsPayload st).lookup "totalRegistrations" =
      some (.s (st.totalReg.getD "0")) ∧
    (statsPayload st).lookup "hits" =
      some (.arr ((st.hits.getD []).map hitJson)) := by
  refine ⟨by simp [statsHandlerV1, readStats], ?_, ?_, ?_, ?_⟩ <;>
    simp [statsPayload, JVal.lookup, List.lookup]

/-- C7 counterexample: the part_000 variant's credential-verified /stats
call succeeds but returns the hardcoded simulated numbers: activeUsers is
the constant 42, pageViews the constant 1248, and the response carries
neither a stored hits list nor a registration counter. -/
theorem part000Stats_hardcoded :
    statsHandlerPart000 [0] (bytesToHex [0]) "t0" =
      ⟨200, part000StatsBody "t0"⟩ ∧
    (part000StatsBody "t0").lookup "activeUsers" = some (.n 42) ∧
    (part000StatsBody "t0").lookup "pageViews" = some (.n 1248) ∧
    (part000StatsBody "t0").lookup "totalRegistrations" = none ∧
    (part000StatsBody "t0").lookup "hits" = none := by
  refine ⟨by simp [statsHandlerPart000], ?_, ?_, ?_, ?_⟩ <;>
    simp [part000StatsBody, JVal.lookup, List.lookup]

/-- C8 (amended): in the store-backed variant, /track without the KV
namespace answers 500 with the explicit configuration error naming
NUC7_STATS, and with the namespace present it persists the hit at the
front of the ledger and answers success. -/
theorem trackHandlerV1_spec (st : StatsStore) (hd : HitData) (now : String) :
    (trackHandlerV1 none hd now).2.status = 500 ∧
    (trackHandlerV1 none hd now).2.body.lookup "error" =
      some (.s "KV Namespace NUC7_STATS not found.") ∧
    (trackHandlerV1 none hd now).1 = none ∧
    (trackHandlerV1 (some st) hd now).2 =
      ⟨200, .obj [("success", .b true)]⟩ ∧
    (trackHandlerV1 (some st) hd now).1 = some (applyTrack st hd now) ∧
    (applyTrack st hd now).hits =
      some (recordHitHits (st.hits.getD []) (mkHit hd now)) ∧
    (recordHitHits (st.hits.getD []) (mkHit hd now)).head? =
      some (mkHit hd now) := by
  refine ⟨rfl, ?_, rfl, rfl, rfl, rfl, recordHitHits_head _ _⟩
  simp [trackHandlerV1, JVal.lookup, List.lookup]

/-- C8 counterexample: the part_000 /track stub returns success with
status 200 even when the store handle is absent (the claim demands a 500
configuration error), and when a store is present it persists nothing. -/
theorem trackPart000_is_noop :
    (trackHandlerPart000 none ⟨"/", none, none⟩).2.status = 200 ∧
    (trackHandlerPart000 none ⟨"/", none, none⟩).2.body.lookup "success" =
      some (.b true) ∧
    (trackHandlerPart000 none ⟨"/", none, none⟩).1 = none ∧
    (trackHandlerPart000 (some emptyStore) ⟨"/", none, none⟩).1 =
      some emptyStore ∧
    emptyStore.hits = none := by
  refine ⟨rfl, ?_, rfl, rfl, rfl⟩
  simp [trackHandlerPart000, JVal.lookup, List.lookup]

/-- C9: the registration-counter update of /send-registration is
best-effort and independent of the e-mail step: whether the counter store
is configured or not, the invitation e-mail step is attempted exactly
when the sendgrid key is configured, and the success response is
returned; an absent store simply skips the increment. -/
theorem sendRegistration_best_effort (store : Option StatsStore)
    (sendgridKey : Option String) (digest : List Nat) :
    (sendRegistrationHandler store sendgridKey digest).emailAttempted =
      sendgridKey.isSome ∧
    (sendRegistrationHandler store sendgridKey digest).response =
      ⟨200, .obj [("success", .b true),
                  ("message", .s "Registry complete. Check email.")]⟩ ∧
    (sendRegistrationHandler none sendgridKey digest).store = none ∧
    (∀ st, (sendRegistrationHandler (some st) sendgridKey digest).store =
      some (applyRegistration st)) ∧
    (sendRegistrationHandler none sendgridKey digest).emailAttempted =
      (sendRegistrationHandler store sendgridKey digest).emailAttempted := by
  exact ⟨rfl, rfl, rfl, fun st => rfl, rfl⟩

/-- C10: the store-backed /stats success body returns pageViews and
totalRegistrations as the raw stored decimal strings (the string "0" when
the key is absent) while activeUsers is a number, and a failed
/validate-quiz response carries the extra error field "Failed". -/
theorem stats_strings_and_quiz_error_spec (st : StatsStore)
    (bank : List Question) (answers : List SubmittedAnswer) (email : String)
    (now : Nat) :
    (statsPayload st).lookup "pageViews" = some (.s (st.totalViews.getD "0")) ∧
    (statsPayload st).lookup "totalRegistrations" =
      some (.s (st.totalReg.getD "0")) ∧
    (statsPayload emptyStore).lookup "pageViews" = some (.s "0") ∧
    (statsPayload st).lookup "activeUsers" =
      some (.n (max 1 ((st.hits.getD []).length / 4))) ∧
    (validateQuizHandler bank answers email now).body.lookup "error" =
      (if passThreshold ≤ scoreQuiz bank answers
        then none else some (.s "Failed")) := by
  refine ⟨?_, ?_, ?_, ?_, ?_⟩
  · simp [statsPayload, JVal.lookup, List.lookup]
  · simp [statsPayload, JVal.lookup, List.lookup]
  · simp [statsPayload, emptyStore, JVal.lookup, List.lookup]
  · simp [statsPayload, JVal.lookup, List.lookup]
  · by_cases h : passThreshold ≤ scoreQuiz bank answers <;>
      simp [validateQuizHandler, JVal.lookup, List.lookup, h]

end Nuc7
